import Mathlib

/-!
Verification of the no-op keep-alive behaviour/handler of
`swarm/src/keep_alive.rs` (rust-libp2p).

The Rust file defines a unit-state `Behaviour` (a `NetworkBehaviour`) and a
unit-state `ConnectionHandler` that keep every connection alive and do
nothing else.  Methods taking `&mut self` are embedded as explicit
state-passing functions; `std::task::Poll` and the event vocabulary of the
crate are embedded as plain inductive types.  The uninhabited Rust type
`void::Void` is embedded as Lean's `Empty`, and `void::unreachable` as
`Empty.elim`.
-/

namespace KeepAliveRs

/-- Poll result of a cooperative suspension point (`std::task::Poll`). -/
inductive Poll (α : Type) where
  | ready (v : α)
  | pending
deriving DecidableEq

/-- Modelled from the spec: the polling `Context` handed to `poll`, through
which the callee may register the current task for a future wake-up.  The
field counts wake-up registrations made through this context; code that does
not touch the context returns it unchanged. -/
structure Context where
  registeredWakers : Nat
deriving DecidableEq

/-- Modelled from the spec: opaque identifier of a remote peer. -/
structure PeerId where
  id : Nat
deriving DecidableEq

/-- Modelled from the spec: opaque identifier, unique per physical
connection, assigned by the transport layer (`libp2p_core`). -/
structure ConnectionId where
  id : Nat
deriving DecidableEq

/-- Modelled from the spec: the `KeepAlive` verdict of the handler module:
Yes (never time out), No (eligible for immediate idle close), or
Until(deadline).  Only `Yes` is used by the code under verification. -/
inductive KeepAlive where
  | yes
  | no
  | untilDeadline (deadline : Nat)
deriving DecidableEq

/-- Modelled from the spec: `DeniedUpgrade` (`libp2p_core::upgrade`), the
well-known sentinel protocol that always fails negotiation immediately; its
negotiated output type is the uninhabited `Void`. -/
structure DeniedUpgrade where
deriving DecidableEq

/-- Modelled from the spec: `SubstreamProtocol`, a substream-protocol
descriptor pairing the upgrade to offer with handler-supplied open-info
returned verbatim when negotiation completes or fails. -/
structure SubstreamProtocol (Upg Info : Type) where
  upgrade : Upg
  info : Info
deriving DecidableEq

/-- `ConnectionEvent<IP, OP, IOI, OOI>` instantiated at the payloads the
handler sees: `IPOut`/`OPOut` are the negotiated outputs of the inbound and
outbound upgrades, `IOI`/`OOI` the open-info types, and `DErr`, `LErr`,
`Addr` the payloads of the error and address-change variants. -/
inductive ConnectionEvent (IPOut OPOut IOI OOI DErr LErr Addr : Type) where
  | fullyNegotiatedInbound (protocol : IPOut) (info : IOI)
  | fullyNegotiatedOutbound (protocol : OPOut) (info : OOI)
  | dialUpgradeError (info : OOI) (error : DErr)
  | listenUpgradeError (info : IOI) (error : LErr)
  | addressChange (newAddress : Addr)

/-- `ConnectionHandlerEvent<OutboundProtocol, OutboundOpenInfo, OutEvent>`:
what a handler's `poll` may emit — an outbound-substream request carrying a
protocol descriptor with open-info, or a custom event for the behaviour. -/
inductive ConnectionHandlerEvent (OP OOI OutEv : Type) where
  | outboundSubstreamRequest (protocol : SubstreamProtocol OP OOI)
  | custom (ev : OutEv)

/-- `FromSwarm` lifecycle notifications delivered to a behaviour.  The
twelve variants are exactly those matched in `Behaviour::on_swarm_event`;
their payload structs live outside the verified file, so each variant is
parametrised by its payload type. -/
inductive FromSwarm (CE CC AC DF LF NL NLA ELA LE LC NEA EEA : Type) where
  | connectionEstablished (v : CE)
  | connectionClosed (v : CC)
  | addressChange (v : AC)
  | dialFailure (v : DF)
  | listenFailure (v : LF)
  | newListener (v : NL)
  | newListenAddr (v : NLA)
  | expiredListenAddr (v : ELA)
  | listenerError (v : LE)
  | listenerClosed (v : LC)
  | newExternalAddr (v : NEA)
  | expiredExternalAddr (v : EEA)

/-- Modelled from the spec: `NetworkBehaviourAction` directives a behaviour's
`poll` may emit toward the swarm — dial a peer, close a connection, deliver
an event to the application, or report a new listen address. -/
inductive NetworkBehaviourAction (OutEv Addr : Type) where
  | generateEvent (ev : OutEv)
  | dial (peer : PeerId)
  | closeConnection (peer : PeerId) (conn : ConnectionId)
  | reportNewListenAddr (addr : Addr)

/-- `pub struct ConnectionHandler;` — the no-op keep-alive handler, a unit
struct with no fields. -/
structure ConnectionHandler where
deriving DecidableEq

/-- `pub struct Behaviour;` — the no-op keep-alive behaviour, a unit struct
with no fields. -/
structure Behaviour where
deriving DecidableEq

/-- `type InEvent = Void;` of the handler. -/
def ConnectionHandler.InEvent : Type := Empty

/-- `type OutEvent = Void;` of the handler. -/
def ConnectionHandler.OutEvent : Type := Empty

/-- `type InboundOpenInfo = ();` of the handler. -/
def ConnectionHandler.InboundOpenInfo : Type := Unit

/-- `type OutboundOpenInfo = Void;` of the handler. -/
def ConnectionHandler.OutboundOpenInfo : Type := Empty

/-- `fn listen_protocol(&self) -> SubstreamProtocol<DeniedUpgrade, ()> {
SubstreamProtocol::new(DeniedUpgrade, ()) }` — pure (`&self`). -/
def ConnectionHandler.listen_protocol (_h : ConnectionHandler) :
    SubstreamProtocol DeniedUpgrade Unit :=
  ⟨DeniedUpgrade.mk, ()⟩

/-- `fn on_behaviour_event(&mut self, v: Void) { void::unreachable(v) }`. -/
def ConnectionHandler.on_behaviour_event (_h : ConnectionHandler)
    (v : ConnectionHandler.InEvent) : ConnectionHandler :=
  v.elim

/-- `fn connection_keep_alive(&self) -> KeepAlive { KeepAlive::Yes }`. -/
def ConnectionHandler.connection_keep_alive (_h : ConnectionHandler) :
    KeepAlive :=
  KeepAlive.yes

/-- `fn poll(&mut self, _: &mut Context) -> Poll<ConnectionHandlerEvent<..>>
{ Poll::Pending }` — the context (ignored by the body) and the handler state
are threaded explicitly. -/
def ConnectionHandler.poll (h : ConnectionHandler) (cx : Context) :
    Poll (ConnectionHandlerEvent DeniedUpgrade ConnectionHandler.OutboundOpenInfo
      ConnectionHandler.OutEvent) × ConnectionHandler × Context :=
  (Poll.pending, h, cx)

/-- `fn on_connection_event(&mut self, event: ConnectionEvent<..>)`: the
fully-negotiated arms call `void::unreachable(protocol)` (the negotiated
output of `DeniedUpgrade` is `Void`); the error and address-change arms are
`{}`. -/
def ConnectionHandler.on_connection_event {DErr LErr Addr : Type}
    (h : ConnectionHandler)
    (event : ConnectionEvent Empty Empty ConnectionHandler.InboundOpenInfo
      ConnectionHandler.OutboundOpenInfo DErr LErr Addr) : ConnectionHandler :=
  match event with
  | .fullyNegotiatedInbound protocol _ => protocol.elim
  | .fullyNegotiatedOutbound protocol _ => protocol.elim
  | .dialUpgradeError _ _ => h
  | .listenUpgradeError _ _ => h
  | .addressChange _ => h

/-- `fn new_handler(&mut self) -> ConnectionHandler { ConnectionHandler }` —
returns a fresh unit-state handler and the (unchanged) behaviour state. -/
def Behaviour.new_handler (b : Behaviour) : ConnectionHandler × Behaviour :=
  (ConnectionHandler.mk, b)

/-- `fn on_connection_handler_event(&mut self, _: PeerId, _: ConnectionId,
event: Void) { void::unreachable(event) }`. -/
def Behaviour.on_connection_handler_event (_b : Behaviour) (_peer : PeerId)
    (_conn : ConnectionId) (event : ConnectionHandler.OutEvent) : Behaviour :=
  event.elim

/-- `fn poll(&mut self, _: &mut Context, _: &mut impl PollParameters) ->
Poll<NetworkBehaviourAction<..>> { Poll::Pending }` — context, behaviour
state and poll parameters are threaded explicitly. -/
def Behaviour.poll {P Addr : Type} (b : Behaviour) (cx : Context)
    (params : P) :
    Poll (NetworkBehaviourAction ConnectionHandler.OutEvent Addr)
      × Behaviour × Context × P :=
  (Poll.pending, b, cx, params)

/-- `fn on_swarm_event(&mut self, event: FromSwarm<..>)`: an exhaustive match
whose every arm is `{}`. -/
def Behaviour.on_swarm_event {CE CC AC DF LF NL NLA ELA LE LC NEA EEA : Type}
    (b : Behaviour)
    (event : FromSwarm CE CC AC DF LF NL NLA ELA LE LC NEA EEA) : Behaviour :=
  match event with
  | .connectionEstablished _ => b
  | .connectionClosed _ => b
  | .addressChange _ => b
  | .dialFailure _ => b
  | .listenFailure _ => b
  | .newListener _ => b
  | .newListenAddr _ => b
  | .expiredListenAddr _ => b
  | .listenerError _ => b
  | .listenerClosed _ => b
  | .newExternalAddr _ => b
  | .expiredExternalAddr _ => b

end KeepAliveRs

namespace KeepAliveRs

/-- C1: for every sequence of `ConnectionEvent` values delivered to the
no-op `ConnectionHandler`, `connection_keep_alive` returns `KeepAlive.yes`;
the result does not depend on the event history. -/
theorem connection_keep_alive_always_yes {DErr LErr Addr : Type}
    (h : ConnectionHandler)
    (events : List (ConnectionEvent Empty Empty ConnectionHandler.InboundOpenInfo
      ConnectionHandler.OutboundOpenInfo DErr LErr Addr)) :
    (events.foldl ConnectionHandler.on_connection_event h).connection_keep_alive
      = KeepAlive.yes :=
  rfl

/-- C2: for every sequence of `FromSwarm` events delivered via
`on_swarm_event`, the behaviour state is unchanged, and every subsequent
`poll` returns `Poll.pending` (no `NetworkBehaviourAction` is emitted). -/
theorem on_swarm_event_stateless_and_poll_pending
    {CE CC AC DF LF NL NLA ELA LE LC NEA EEA P Addr : Type} (b : Behaviour)
    (events : List (FromSwarm CE CC AC DF LF NL NLA ELA LE LC NEA EEA)) :
    events.foldl Behaviour.on_swarm_event b = b ∧
    ∀ (cx : Context) (params : P),
      (@Behaviour.poll P Addr (events.foldl Behaviour.on_swarm_event b) cx
        params).fst = Poll.pending := by
  have hfold : events.foldl Behaviour.on_swarm_event b = b := by
    induction events with
    | nil => rfl
    | cons e es ih =>
      cases e <;> exact ih
  exact ⟨hfold, fun cx params => rfl⟩

/-- C3: every call to the no-op handler's `poll` returns `Poll.pending`, for
every context and every handler state, and hence never emits a
`ConnectionHandlerEvent`. -/
theorem handler_poll_always_pending (h : ConnectionHandler) (cx : Context) :
    h.poll cx = (Poll.pending, h, cx) ∧
    ∀ ev, (h.poll cx).fst ≠ Poll.ready ev :=
  ⟨rfl, fun _ hev => Poll.noConfusion hev⟩

/-- C4: every call to `listen_protocol` returns the denied-protocol
descriptor `SubstreamProtocol.mk DeniedUpgrade.mk ()`; the call is pure
(`&self`) and any two calls, on any handler states, agree. -/
theorem listen_protocol_denied (h : ConnectionHandler) :
    h.listen_protocol = ⟨DeniedUpgrade.mk, ()⟩ ∧
    ∀ h₂ : ConnectionHandler, h₂.listen_protocol = h.listen_protocol :=
  ⟨rfl, fun _ => rfl⟩

/-- C5: `on_connection_event` is total over all reachable events: every
actually constructible event is a `dialUpgradeError`, `listenUpgradeError`
or `addressChange` (the fully-negotiated variants are uninhabited because
`DeniedUpgrade`'s negotiated output is `Void`), and the handler state is
left unchanged. -/
theorem on_connection_event_total_noop {DErr LErr Addr : Type}
    (h : ConnectionHandler)
    (event : ConnectionEvent Empty Empty ConnectionHandler.InboundOpenInfo
      ConnectionHandler.OutboundOpenInfo DErr LErr Addr) :
    h.on_connection_event event = h ∧
    ((∃ i e, event = ConnectionEvent.dialUpgradeError i e) ∨
     (∃ i e, event = ConnectionEvent.listenUpgradeError i e) ∨
     (∃ a, event = ConnectionEvent.addressChange a)) := by
  cases event with
  | fullyNegotiatedInbound protocol info => exact protocol.elim
  | fullyNegotiatedOutbound protocol info => exact protocol.elim
  | dialUpgradeError info e => exact ⟨rfl, Or.inl ⟨info, e, rfl⟩⟩
  | listenUpgradeError info e => exact ⟨rfl, Or.inr (Or.inl ⟨info, e, rfl⟩)⟩
  | addressChange a => exact ⟨rfl, Or.inr (Or.inr ⟨a, rfl⟩)⟩

/-- C6: `on_behaviour_event` can never be invoked with an actual event: the
handler's `InEvent` type is uninhabited, so every statement about a call is
vacuously true. -/
theorem on_behaviour_event_unreachable :
    IsEmpty ConnectionHandler.InEvent ∧
    ∀ (h : ConnectionHandler) (v : ConnectionHandler.InEvent),
      h.on_behaviour_event v = ConnectionHandler.mk :=
  ⟨⟨fun v => Empty.elim v⟩, fun _ v => Empty.elim v⟩

/-- C7: `Behaviour.on_connection_handler_event` can never be invoked with an
actual event: the handler's `OutEvent` type is uninhabited, so for every
`PeerId` and `ConnectionId` there is no event value to route. -/
theorem on_connection_handler_event_unreachable :
    IsEmpty ConnectionHandler.OutEvent ∧
    ∀ (b : Behaviour) (p : PeerId) (c : ConnectionId)
      (ev : ConnectionHandler.OutEvent),
      b.on_connection_handler_event p c ev = b :=
  ⟨⟨fun v => Empty.elim v⟩, fun _ _ _ ev => Empty.elim ev⟩

/-- C8: `new_handler` returns a handler in the initial (empty) state, leaves
the behaviour state unchanged, and two successive calls return handlers with
identical initial state. -/
theorem new_handler_fresh (b : Behaviour) :
    (b.new_handler).fst = ConnectionHandler.mk ∧
    (b.new_handler).snd = b ∧
    ((b.new_handler).snd.new_handler).fst = (b.new_handler).fst :=
  ⟨rfl, rfl, rfl⟩

/-- C9: the open-info round-trip property holds vacuously for the no-op
handler: `OutboundOpenInfo` is uninhabited and `poll` never returns an
outbound-substream request, so no such request ever exists. -/
theorem outbound_round_trip_vacuous :
    IsEmpty ConnectionHandler.OutboundOpenInfo ∧
    ∀ (h : ConnectionHandler) (cx : Context)
      (proto : SubstreamProtocol DeniedUpgrade ConnectionHandler.OutboundOpenInfo),
      (h.poll cx).fst
        ≠ Poll.ready (ConnectionHandlerEvent.outboundSubstreamRequest proto) :=
  ⟨⟨fun v => Empty.elim v⟩, fun _ _ _ hev => Poll.noConfusion hev⟩

/-- C10: both `poll` functions are deterministic and context-independent:
any two invocations, with arbitrary contexts and arbitrary states, return
the same result (`Poll.pending`), and the context is returned unchanged, so
no waker registration ever happens. -/
theorem poll_deterministic_no_waker {P Addr : Type} :
    (∀ (h₁ h₂ : ConnectionHandler) (cx₁ cx₂ : Context),
      (h₁.poll cx₁).fst = (h₂.poll cx₂).fst ∧ (h₁.poll cx₁).snd.snd = cx₁) ∧
    (∀ (b₁ b₂ : Behaviour) (cx₁ cx₂ : Context) (p₁ p₂ : P),
      (@Behaviour.poll P Addr b₁ cx₁ p₁).fst
        = (@Behaviour.poll P Addr b₂ cx₂ p₂).fst ∧
      (@Behaviour.poll P Addr b₁ cx₁ p₁).snd.snd.fst = cx₁) :=
  ⟨fun _ _ _ _ => ⟨rfl, rfl⟩, fun _ _ _ _ _ _ => ⟨rfl, rfl⟩⟩

end KeepAliveRs
